import Mathlib

set_option linter.unusedVariables false

/-!
Shallow embedding of the agent core of the chrome-gemini-cli repository:
the GeminiClient conversation session (gemini-client.ts), and the
Orchestrator agent loop with its tool-call execution (orchestrator.ts),
translated from the TypeScript source. External collaborators — the Gemini
API transport, the MCP browser backend, and the JavaScript runtime
primitives JSON.parse and JSON.stringify — are modelled as oracle
functions supplied per run. Transport tuning knobs (model name,
temperature, thinking budget, request delay, timeouts) only parameterize
the external request and are absorbed by the backend oracle.
-/

namespace CGC

/-- JSON-like value for function-call arguments and parsed JSON results.
JavaScript array values do not occur on any modelled code path and are
omitted; JSON objects are modelled as association lists of fields. -/
inductive Value where
  | vStr (s : String)
  | vNum (n : Int)
  | vBool (b : Bool)
  | vNull
  | vObj (fields : List (String × Value))

/-- JavaScript truthiness of a `Value` (empty string, zero, false and null
are falsy; every object is truthy). -/
def Value.truthy : Value → Bool
  | .vStr s => !s.isEmpty
  | .vNum n => n != 0
  | .vBool b => b
  | .vNull => false
  | .vObj _ => true

/-- JavaScript coercion `String(v)` for the modelled values. -/
def Value.jsToString : Value → String
  | .vStr s => s
  | .vNum n => toString n
  | .vBool b => if b then "true" else "false"
  | .vNull => "null"
  | .vObj _ => "[object Object]"

/-- JavaScript truthiness of a possibly-undefined value (`undefined` is
falsy). -/
def jsTruthy : Option Value → Bool
  | none => false
  | some v => v.truthy

/-- JavaScript coercion `String(v)` of a possibly-undefined value. -/
def jsToStringOpt : Option Value → String
  | none => "undefined"
  | some v => v.jsToString

/-- JavaScript truthiness of an optional string (`undefined` and the empty
string are falsy). -/
def jsTruthyText : Option String → Bool
  | none => false
  | some s => !s.isEmpty

/-- ASCII lowercasing of one character, as `toLowerCase` acts on the ASCII
range (all URLs compared by the source are ASCII). -/
def jsCharLower (c : Char) : Char :=
  if 'A' ≤ c ∧ c ≤ 'Z' then Char.ofNat (c.toNat + 32) else c

/-- JavaScript `s.toLowerCase()` restricted to the ASCII range. -/
def jsToLowerCase (s : String) : String :=
  String.mk (s.data.map jsCharLower)

/-- One step of JavaScript `s.replace(/\s+/g, plus)`: the flag records
whether the previous character belonged to a whitespace run. ASCII
whitespace is modelled (the URLs and queries in play are ASCII). -/
def jsIsWhitespace (c : Char) : Bool :=
  c = ' ' ∨ c = '\t' ∨ c = '\n' ∨ c = '\r' ∨ c = '\x0b' ∨ c = '\x0c'

/-- Collapse every maximal whitespace run to a single plus character. -/
def collapseWsAux : Bool → List Char → List Char
  | _, [] => []
  | inRun, c :: rest =>
    if jsIsWhitespace c then
      if inRun then collapseWsAux true rest
      else '+' :: collapseWsAux true rest
    else c :: collapseWsAux false rest

/-- JavaScript `s.replace(/\s+/g, plus)` as used to build the search
query. -/
def replaceWhitespaceRuns (s : String) : String :=
  String.mk (collapseWsAux false s.data)

/-- One function call requested by the model (genai `FunctionCall`: both
fields are optional in the SDK type). -/
structure FunctionCall where
  name : Option String := none
  args : Option (List (String × Value)) := none

/-- One content part of a model reply (genai `Part`, restricted to the
fields the source reads). -/
structure Part where
  text : Option String := none
  functionCall : Option FunctionCall := none

/-- Reply content (genai `Content`): the parts list is optional. -/
structure Content where
  parts : Option (List Part) := none

/-- One reply candidate (genai `Candidate`): the content is optional. -/
structure Candidate where
  content : Option Content := none

/-- Reply of the main `generateContent` request (genai response: the
candidate list is optional). -/
structure GenResponse where
  candidates : Option (List Candidate) := none

/-- Reply of the structured-output reformat request; only its aggregated
`.text` accessor is read by the source. -/
structure StructuredResponse where
  text : Option String := none

/-- Backend oracle for one `continueAgent` call: the outcome of the main
function-calling request and, should the structured path be taken, the
outcome of the reformat sub-request. An `.error` value models the API call
(or its timeout race) throwing with the given message. -/
structure BackendStep where
  mainResult : Except String GenResponse
  structuredResult : Except String StructuredResponse := .ok {}

/-- One tool execution outcome handed back to the model
(`{ result, toolName }` in the source). -/
structure ToolResult where
  result : String
  toolName : String

/-- The kinds of failure `continueAgent` can propagate: a thrown backend
error (including the timeout race), a missing candidate, the
protocol-violation guard, and a JSON parse failure of the structured
reformat result. -/
inductive AgentError where
  | backend (msg : String)
  | noResponse
  | protocolViolation
  | structuredOutputError
  | notConnected
deriving DecidableEq

/-- Tag of an `AgentResponse` (`type: 'answer' | 'function_call'`). -/
inductive RespType where
  | answer
  | function_call
deriving DecidableEq

/-- A final answer value: either the free-text string or the parsed
structured object. -/
inductive AnswerValue where
  | str (s : String)
  | obj (v : Value)

/-- The `AgentResponse` record returned by the client, with its optional
fields as in the source. -/
structure AgentResponse where
  answer : Option AnswerValue := none
  functionCalls : Option (List FunctionCall) := none
  thinking : Option String := none
  type : RespType

/-- JavaScript truthiness of a final answer value (objects, even empty
ones, are truthy; the empty string is falsy). -/
def jsTruthyAnswer : AnswerValue → Bool
  | .str s => !s.isEmpty
  | .obj _ => true

/-- One turn of the conversation history (`{ parts, role }`). -/
structure ChatTurn where
  parts : List Part
  role : String

/-- An MCP tool descriptor; the core forwards these to the backend oracle
verbatim, so only the identity fields are kept. -/
structure Tool where
  name : String := ""
  description : Option String := none

/-- State of the GeminiClient session: the conversation history, the
optional response schema and the system prompt. -/
structure GeminiClient where
  conversationHistory : List ChatTurn := []
  responseSchema : Option Value := none
  systemPrompt : String := ""

/-- The synthetic user message carrying the tool results back to the
model, exactly as the source formats it. -/
def toolResultsMessage (toolResults : List ToolResult) : String :=
  let resultsText := String.intercalate "\n\n"
    (toolResults.map fun toolResult =>
      "Tool: " ++ toolResult.toolName ++ "\nResult: " ++ toolResult.result)
  "Tool Results:\n" ++ resultsText ++
    "\n\nDecide your next action: If you have enough information to answer - call provide_answer with what you found. If you need more details - click a link or call another tool. If error - try a different approach. Make a decision and act NOW."

/-- Append the tool results (when present and nonempty) to the history as
a synthetic user turn. -/
def appendToolResults (st : GeminiClient) (toolResults : Option (List ToolResult)) : GeminiClient :=
  match toolResults with
  | some trs =>
    if trs.length > 0 then
      { st with conversationHistory := st.conversationHistory ++
          [{ parts := [{ text := some (toolResultsMessage trs) }], role := "user" }] }
    else st
  | none => st

/-- The parts of a candidate, defaulted to the empty list
(`candidate.content?.parts || []`). -/
def partsOf (candidate : Candidate) : List Part :=
  (candidate.content.bind Content.parts).getD []

/-- The function-call parts of a candidate
(`candidate.content?.parts?.filter(part => part.functionCall)`); the
optional chaining keeps the result optional. -/
def functionCallPartsOf (candidate : Candidate) : Option (List Part) :=
  (candidate.content.bind Content.parts).map (List.filter fun p => p.functionCall.isSome)

/-- The function calls extracted from the function-call parts. -/
def functionCallsOf (candidate : Candidate) : List FunctionCall :=
  ((functionCallPartsOf candidate).getD []).filterMap Part.functionCall

/-- The plain-text fragment accompanying a call
(`candidate.content?.parts?.find(part => part.text)?.text`). -/
def thinkingOf (candidate : Candidate) : Option String :=
  (((candidate.content.bind Content.parts).getD []).find? fun p => jsTruthyText p.text).bind Part.text

/-- Append the raw model reply to the history (role `model`). -/
def appendModelTurn (st : GeminiClient) (candidate : Candidate) : GeminiClient :=
  { st with conversationHistory := st.conversationHistory ++
      [{ parts := partsOf candidate, role := "model" }] }

/-- Embedding of `GeminiClient.continueAgent`: appends the tool results,
consults the backend oracle for the forced function-calling request,
records the reply, and decides between the answer path (with optional
structured reformat through the `jsonParse` oracle) and the
function-call path; a reply with no function calls is the protocol
violation. Thrown errors surface as `Except.error` (the catch block of
the source logs and rethrows). -/
def continueAgent (st : GeminiClient) (availableTools : List Tool)
    (toolResults : Option (List ToolResult)) (step : BackendStep)
    (jsonParse : String → Option Value) : Except AgentError (AgentResponse × GeminiClient) :=
  let st1 := appendToolResults st toolResults
  match step.mainResult with
  | .error msg => .error (.backend msg)
  | .ok response =>
    match response.candidates.bind List.head? with
    | none => .error .noResponse
    | some candidate =>
      let st2 := appendModelTurn st1 candidate
      if !((functionCallPartsOf candidate).getD []).isEmpty then
        let functionCalls := functionCallsOf candidate
        match functionCalls.find? (fun c => c.name == some "provide_answer") with
        | some provideAnswerCall =>
          if jsTruthy (provideAnswerCall.args.bind (List.lookup "answer")) then
            let answerText := jsToStringOpt (provideAnswerCall.args.bind (List.lookup "answer"))
            match st2.responseSchema with
            | some _ =>
              match step.structuredResult with
              | .error msg => .error (.backend msg)
              | .ok structuredResponse =>
                match jsonParse (structuredResponse.text.getD "\x7b\x7d") with
                | none => .error .structuredOutputError
                | some structuredAnswer =>
                  .ok ({ answer := some (.obj structuredAnswer), type := .answer }, st2)
            | none => .ok ({ answer := some (.str answerText), type := .answer }, st2)
          else
            .ok ({ functionCalls := some functionCalls, thinking := thinkingOf candidate,
                   type := .function_call }, st2)
        | none =>
          .ok ({ functionCalls := some functionCalls, thinking := thinkingOf candidate,
                 type := .function_call }, st2)
      else
        .error .protocolViolation

/-- Embedding of `GeminiClient.reset`. -/
def reset (st : GeminiClient) : GeminiClient :=
  { st with conversationHistory := [] }

/-- Embedding of `GeminiClient.startAgent`: clears the history, appends
the initial user turn, and continues. -/
def startAgent (st : GeminiClient) (userQuery : String) (availableTools : List Tool)
    (step : BackendStep) (jsonParse : String → Option Value) :
    Except AgentError (AgentResponse × GeminiClient) :=
  let st := { st with conversationHistory :=
    [{ parts := [{ text := some (st.systemPrompt ++ "\n\nUser: \"" ++ userQuery ++ "\"") }],
       role := "user" }] }
  continueAgent st availableTools none step jsonParse

/-- Embedding of `GeminiClient.addUserMessage`: appends a user turn and
continues. -/
def addUserMessage (st : GeminiClient) (message : String) (availableTools : List Tool)
    (step : BackendStep) (jsonParse : String → Option Value) :
    Except AgentError (AgentResponse × GeminiClient) :=
  let st := { st with conversationHistory := st.conversationHistory ++
    [{ parts := [{ text := some message }], role := "user" }] }
  continueAgent st availableTools none step jsonParse

/-- One content item of an MCP tool result (`{ type, text? }`; other
fields of the opaque item only matter through the stringify oracle). -/
structure ContentItem where
  type : String
  text : Option String := none

/-- Raw result of an MCP tool call, classified the way
`formatToolResult` discriminates it: a plain string, a non-null object
carrying a content array, any other non-null object (carried with its
`JSON.stringify(result, null, 2)` serialization, which is external), or a
non-object primitive (carried with its `String(result)` coercion). -/
inductive RawResult where
  | rStr (s : String)
  | rContent (items : List ContentItem)
  | rOtherObj (serialized : String)
  | rPrim (coerced : String)

/-- Embedding of `Orchestrator.formatToolResult`; `stringifyItem` is the
JSON.stringify oracle for content items of unknown type. -/
def formatToolResult (stringifyItem : ContentItem → String) : RawResult → String
  | .rStr s => s
  | .rContent items =>
    String.intercalate "\n"
      (items.map fun item =>
        if item.type = "text" then item.text.getD ""
        else if item.type = "image" then "[Image content not shown to agent]"
        else stringifyItem item)
  | .rOtherObj serialized => serialized
  | .rPrim coerced => coerced

/-- Oracle environment of one Orchestrator run: the Gemini backend reply
for the k-th main request of the task, the MCP `callTool` interface
(an `.error` models a throw with the given message), and the JavaScript
JSON primitives. -/
structure Env where
  backend : Nat → BackendStep
  callTool : String → List (String × Value) → Except String RawResult
  jsonParse : String → Option Value
  stringifyItem : ContentItem → String

/-- JavaScript assignment `args.url = value` on the argument object:
replace the binding when the key is present, add it otherwise. -/
def setArg : List (String × Value) → String → Value → List (String × Value)
  | [], key, value => [(key, value)]
  | (k, v) :: rest, key, value =>
    if k = key then (key, value) :: rest else (k, v) :: setArg rest key value

/-- The six bare search-engine homepage spellings intercepted by the
source. -/
def isBareGoogleUrl (url : String) : Prop :=
  url = "https://www.google.com" ∨ url = "https://google.com" ∨
  url = "http://www.google.com" ∨ url = "http://google.com" ∨
  url = "www.google.com" ∨ url = "google.com"

instance : DecidablePred isBareGoogleUrl := fun url => by
  unfold isBareGoogleUrl; infer_instance

/-- Embedding of the navigate_page interception inside
`executeFunctionCalls`: when the lowercased url argument is a bare Google
homepage without a query component, rewrite it to a full search URL built
from the current task query (whitespace runs collapsed to a plus).
`url.includes` with the one-character needle is character membership. -/
def fixNavigateUrl (currentQuery : String) (toolName : String)
    (args : List (String × Value)) : List (String × Value) :=
  if toolName = "navigate_page" ∧ jsTruthy (args.lookup "url") then
    if isBareGoogleUrl (jsToLowerCase (jsToStringOpt (args.lookup "url"))) ∧
        ¬ ('?' ∈ (jsToLowerCase (jsToStringOpt (args.lookup "url"))).data) then
      setArg args "url"
        (.vStr ("https://www.google.com/search?q=" ++ replaceWhitespaceRuns currentQuery))
    else args
  else args

/-- Body of one iteration of the result-collecting loop of
`executeFunctionCalls`: the try block throws on a missing tool name
(`String(undefined)` names the failed entry), applies the url fix-up,
executes the tool through the oracle and formats the outcome; the catch
block encodes any throw as an `Error:` result. -/
def executeOneCall (env : Env) (currentQuery : String) (functionCall : FunctionCall) : ToolResult :=
  let args := functionCall.args.getD []
  match functionCall.name with
  | none => { result := "Error: Tool name is not a string", toolName := "undefined" }
  | some toolName =>
    let args := fixNavigateUrl currentQuery toolName args
    match env.callTool toolName args with
    | .ok result => { result := formatToolResult env.stringifyItem result, toolName := toolName }
    | .error msg => { result := "Error: " ++ msg, toolName := toolName }

/-- Embedding of `Orchestrator.executeFunctionCalls`: one result pushed
per requested call, in request order. -/
def executeFunctionCalls (env : Env) (currentQuery : String) :
    List FunctionCall → List ToolResult
  | [] => []
  | functionCall :: rest =>
    executeOneCall env currentQuery functionCall :: executeFunctionCalls env currentQuery rest

/-- The fixed sentinel returned when the loop ends without a truthy
answer. -/
def maxStepsSentinel : AnswerValue :=
  .str "Maximum steps reached. Task incomplete."

/-- The shared agentic while loop of `executeTask` and
`continueConversation`. The step counter, the ceiling and the index of
the next backend reply are threaded explicitly; the returned number is
the final value of `steps`, which also counts the executed loop bodies
(the source keeps it local and discards it). -/
def agentLoop (env : Env) (currentQuery : String) (availableTools : List Tool)
    (st : GeminiClient) (agentResponse : AgentResponse)
    (steps maxSteps k : Nat) : Except AgentError (AnswerValue × Nat) :=
  if h : agentResponse.type = .function_call ∧ steps < maxSteps then
    let functionCalls := agentResponse.functionCalls.getD []
    let toolResults := executeFunctionCalls env currentQuery functionCalls
    match continueAgent st availableTools (some toolResults) (env.backend k) env.jsonParse with
    | .error e => .error e
    | .ok (next, st2) =>
      agentLoop env currentQuery availableTools st2 next (steps + 1) maxSteps (k + 1)
  else
    match agentResponse.type, agentResponse.answer with
    | .answer, some a =>
      if jsTruthyAnswer a then .ok (a, steps) else .ok (maxStepsSentinel, steps)
    | _, _ => .ok (maxStepsSentinel, steps)
termination_by maxSteps - steps
decreasing_by omega

/-- State of the Orchestrator relevant to a task run. -/
structure Orchestrator where
  geminiClient : GeminiClient
  availableTools : List Tool := []
  isConnected : Bool := true
  maxSteps : Nat

/-- Embedding of `Orchestrator.executeTask`: records the current query,
starts the agent and runs the loop; the final pair carries the result and
the final step count. -/
def executeTask (env : Env) (o : Orchestrator) (userQuery : String) :
    Except AgentError (AnswerValue × Nat) :=
  if o.isConnected then
    match startAgent o.geminiClient userQuery o.availableTools (env.backend 0) env.jsonParse with
    | .error e => .error e
    | .ok (agentResponse, st) =>
      agentLoop env userQuery o.availableTools st agentResponse 0 o.maxSteps 1
  else .error .notConnected

/-- Embedding of `Orchestrator.continueConversation`: same loop, entered
through `addUserMessage` so the history is kept. -/
def continueConversation (env : Env) (o : Orchestrator) (userMessage : String) :
    Except AgentError (AnswerValue × Nat) :=
  if o.isConnected then
    match addUserMessage o.geminiClient userMessage o.availableTools (env.backend 0) env.jsonParse with
    | .error e => .error e
    | .ok (agentResponse, st) =>
      agentLoop env userMessage o.availableTools st agentResponse 0 o.maxSteps 1
  else .error .notConnected

/-- A part carrying one function call. -/
def fcPart (c : FunctionCall) : Part :=
  { functionCall := some c }

/-- A backend reply whose single candidate carries the given parts. -/
def okReply (parts : List Part) : BackendStep :=
  { mainResult := .ok { candidates := some [{ content := some { parts := some parts } }] } }

/-- Scenario: a capability request used on the first two model turns. -/
def scenBrowseCall : FunctionCall :=
  { name := some "take_snapshot", args := some [] }

/-- Scenario: the terminal provide_answer call of the third model turn. -/
def scenAnswerCall : FunctionCall :=
  { name := some "provide_answer", args := some [("answer", .vStr "Found it")] }

/-- Scenario backend: one capability on each of the first two turns, the
answer on the third. -/
def scenBackend : Nat → BackendStep
  | 0 => okReply [fcPart scenBrowseCall]
  | 1 => okReply [fcPart scenBrowseCall]
  | _ => okReply [fcPart scenAnswerCall]

/-- Scenario oracle environment. -/
def scenEnv : Env :=
  { backend := scenBackend
    callTool := fun _ _ => .ok (.rStr "page content")
    jsonParse := fun _ => none
    stringifyItem := fun _ => "" }

/-- Scenario orchestrator with the given ceiling. -/
def scenOrch (maxSteps : Nat) : Orchestrator :=
  { geminiClient := { systemPrompt := "agent prompt" }, maxSteps := maxSteps }

/-- Concrete run of the scenario with ceiling 2: the loop executes two
bodies and the answer arrives on the final permitted step. -/
lemma scen_eval_ceiling_two :
    executeTask scenEnv (scenOrch 2) "find X" = .ok (.str "Found it", 2) := by
  simp +decide [executeTask, startAgent, addUserMessage, continueAgent, agentLoop, executeFunctionCalls,
    executeOneCall, fixNavigateUrl, formatToolResult, appendToolResults, appendModelTurn,
    partsOf, functionCallPartsOf, functionCallsOf, thinkingOf, toolResultsMessage,
    scenEnv, scenBackend, scenOrch, scenBrowseCall, scenAnswerCall, okReply, fcPart,
    jsTruthy, jsTruthyAnswer, jsTruthyText, jsToStringOpt, Value.jsToString, Value.truthy,
    maxStepsSentinel, setArg]

/-- Concrete run of the scenario with ceiling 3: the answer is produced
after two loop bodies, not three. -/
lemma scen_eval_ceiling_three :
    executeTask scenEnv (scenOrch 3) "find X" = .ok (.str "Found it", 2) := by
  simp +decide [executeTask, startAgent, addUserMessage, continueAgent, agentLoop, executeFunctionCalls,
    executeOneCall, fixNavigateUrl, formatToolResult, appendToolResults, appendModelTurn,
    partsOf, functionCallPartsOf, functionCallsOf, thinkingOf, toolResultsMessage,
    scenEnv, scenBackend, scenOrch, scenBrowseCall, scenAnswerCall, okReply, fcPart,
    jsTruthy, jsTruthyAnswer, jsTruthyText, jsToStringOpt, Value.jsToString, Value.truthy,
    maxStepsSentinel, setArg]

/-- Concrete run of the scenario with ceiling 1: exhaustion after one
body returns the sentinel. -/
lemma scen_eval_ceiling_one :
    executeTask scenEnv (scenOrch 1) "find X" = .ok (maxStepsSentinel, 1) := by
  simp +decide [executeTask, startAgent, addUserMessage, continueAgent, agentLoop, executeFunctionCalls,
    executeOneCall, fixNavigateUrl, formatToolResult, appendToolResults, appendModelTurn,
    partsOf, functionCallPartsOf, functionCallsOf, thinkingOf, toolResultsMessage,
    scenEnv, scenBackend, scenOrch, scenBrowseCall, scenAnswerCall, okReply, fcPart,
    jsTruthy, jsTruthyAnswer, jsTruthyText, jsToStringOpt, Value.jsToString, Value.truthy,
    maxStepsSentinel, setArg]

/-- The loop counter never passes the ceiling: fuel-indexed invariant of
`agentLoop`, the fuel bounding the remaining iterations. -/
lemma agentLoop_ok_le : ∀ (fuel : Nat) (env : Env) (q : String) (tools : List Tool)
    (st : GeminiClient) (resp : AgentResponse) (steps maxSteps k : Nat)
    (r : AnswerValue) (n : Nat),
    maxSteps - steps ≤ fuel → steps ≤ maxSteps →
    agentLoop env q tools st resp steps maxSteps k = .ok (r, n) → n ≤ maxSteps := by
  intro fuel
  induction fuel with
  | zero =>
    intro env q tools st resp steps maxSteps k r n hfuel hle heq
    unfold agentLoop at heq
    rw [dif_neg (fun hc => absurd hc.2 (by omega))] at heq
    have hn : n = steps := by
      split at heq
      · split at heq <;> · cases heq; rfl
      · cases heq; rfl
    omega
  | succ fuel ih =>
    intro env q tools st resp steps maxSteps k r n hfuel hle heq
    by_cases hc : resp.type = RespType.function_call ∧ steps < maxSteps
    · unfold agentLoop at heq
      rw [dif_pos hc] at heq
      dsimp only [] at heq
      split at heq
      · cases heq
      · exact ih env q tools _ _ (steps + 1) maxSteps (k + 1) r n (by omega) (by omega) heq
    · unfold agentLoop at heq
      rw [dif_neg hc] at heq
      have hn : n = steps := by
        split at heq
        · split at heq <;> · cases heq; rfl
        · cases heq; rfl
      omega

/-- C1 (amended): for every task execution through `executeTask` or
`continueConversation`, the step counter after completion is at most
`maxSteps`; the counter equals the number of executed loop bodies, so the
loop body executes at most `maxSteps` times. (The original claim's
addition that equality holds only when the task ends exhausted is false:
the answer may arrive on the final permitted step.) -/
theorem executeTask_stepsTaken_le_ceiling :
    (∀ (env : Env) (o : Orchestrator) (q : String) (r : AnswerValue) (n : Nat),
       executeTask env o q = .ok (r, n) → n ≤ o.maxSteps) ∧
    (∀ (env : Env) (o : Orchestrator) (q : String) (r : AnswerValue) (n : Nat),
       continueConversation env o q = .ok (r, n) → n ≤ o.maxSteps) := by
  constructor
  · intro env o q r n heq
    unfold executeTask at heq
    split at heq
    · split at heq
      · cases heq
      · exact agentLoop_ok_le o.maxSteps env q o.availableTools _ _ 0 o.maxSteps 1 r n
          (by omega) (by omega) heq
    · cases heq
  · intro env o q r n heq
    unfold continueConversation at heq
    split at heq
    · split at heq
      · cases heq
      · exact agentLoop_ok_le o.maxSteps env q o.availableTools _ _ 0 o.maxSteps 1 r n
          (by omega) (by omega) heq
    · cases heq

/-- C1 witness: the bound applied to a concrete completed run. -/
theorem executeTask_stepsTaken_le_ceiling_witness : (2 : Nat) ≤ (scenOrch 2).maxSteps :=
  executeTask_stepsTaken_le_ceiling.1 scenEnv (scenOrch 2) "find X" (.str "Found it") 2
    scen_eval_ceiling_two

/-- C1 counterexample: a completed run in which the step counter equals
the ceiling while the task returned a genuine answer, not the sentinel of
an exhausted task, refuting that equality holds only on exhaustion. -/
theorem stepsTaken_eq_ceiling_with_answer :
    executeTask scenEnv (scenOrch 2) "find X" = .ok (.str "Found it", 2) ∧
    (scenOrch 2).maxSteps = 2 ∧
    AnswerValue.str "Found it" ≠ maxStepsSentinel := by
  refine ⟨scen_eval_ceiling_two, rfl, ?_⟩
  simp +decide [maxStepsSentinel]

/-- C3 counterexample: in the scenario where the model requests one
capability on each of its first two turns and answers on its third, a
ceiling of 2 still returns the answer (not the sentinel), and a ceiling
of 3 consumes two loop steps, not three. -/
theorem scenario_ceiling_two_returns_answer :
    executeTask scenEnv (scenOrch 2) "find X" = .ok (.str "Found it", 2) ∧
    AnswerValue.str "Found it" ≠ maxStepsSentinel ∧
    executeTask scenEnv (scenOrch 3) "find X" = .ok (.str "Found it", 2) := by
  refine ⟨scen_eval_ceiling_two, ?_, scen_eval_ceiling_three⟩
  simp +decide [maxStepsSentinel]

/-- C3 (amended): in that scenario the loop consumes exactly 2 steps and
returns the answer with ceiling 3; with ceiling 2 the answer arrives on
the final permitted step and is still returned; only with ceiling 1 does
the task end with the fixed incomplete sentinel, after 1 step. -/
theorem scenario_two_steps_answer :
    executeTask scenEnv (scenOrch 3) "find X" = .ok (.str "Found it", 2) ∧
    executeTask scenEnv (scenOrch 2) "find X" = .ok (.str "Found it", 2) ∧
    executeTask scenEnv (scenOrch 1) "find X" = .ok (maxStepsSentinel, 1) :=
  ⟨scen_eval_ceiling_three, scen_eval_ceiling_two, scen_eval_ceiling_one⟩

/-- Lowercasing keeps a question mark in the character data. -/
lemma mem_data_jsToLowerCase {s : String} (h : '?' ∈ s.data) : '?' ∈ (jsToLowerCase s).data := by
  have hq : jsCharLower '?' = '?' := by decide
  have := List.mem_map_of_mem jsCharLower h
  rw [hq] at this
  exact this

/-- C2: executeFunctionCalls returns exactly one result per request, in
request order (the i-th result is the outcome of the i-th request), and a
request whose execution throws contributes the string `Error: <message>`
in its position; the function is total, so the exception is never
re-thrown. -/
theorem executeFunctionCalls_one_result_per_request :
    ∀ (env : Env) (q : String),
      (∀ functionCalls : List FunctionCall,
        (executeFunctionCalls env q functionCalls).length = functionCalls.length ∧
        ∀ (i : Nat) (h1 : i < functionCalls.length)
          (h2 : i < (executeFunctionCalls env q functionCalls).length),
          (executeFunctionCalls env q functionCalls).get ⟨i, h2⟩ =
            executeOneCall env q (functionCalls.get ⟨i, h1⟩)) ∧
      (∀ (functionCall : FunctionCall) (toolName msg : String),
        functionCall.name = some toolName →
        env.callTool toolName (fixNavigateUrl q toolName (functionCall.args.getD [])) =
          .error msg →
        executeOneCall env q functionCall =
          { result := "Error: " ++ msg, toolName := toolName }) := by
  intro env q
  constructor
  · intro functionCalls
    induction functionCalls with
    | nil =>
      exact ⟨rfl, fun i h1 _ => absurd h1 (Nat.not_lt_zero i)⟩
    | cons fc rest ih =>
      refine ⟨by simpa [executeFunctionCalls] using ih.1, ?_⟩
      intro i h1 h2
      cases i with
      | zero => rfl
      | succ j =>
        exact ih.2 j (by simpa using h1) (by simpa [executeFunctionCalls] using h2)
  · intro functionCall toolName msg hname hcall
    simp only [executeOneCall, hname]
    rw [hcall]

/-- C2 witness: a throwing tool call is encoded in place, and one request
yields one result. -/
theorem executeFunctionCalls_one_result_per_request_witness :
    executeOneCall
        { backend := fun _ => okReply [], callTool := fun _ _ => .error "boom",
          jsonParse := fun _ => none, stringifyItem := fun _ => "" } "best"
        { name := some "click", args := none } =
      { result := "Error: boom", toolName := "click" } ∧
    (executeFunctionCalls
        { backend := fun _ => okReply [], callTool := fun _ _ => .error "boom",
          jsonParse := fun _ => none, stringifyItem := fun _ => "" } "best"
        [{ name := some "click", args := none }]).length = 1 :=
  ⟨(executeFunctionCalls_one_result_per_request _ "best").2
      { name := some "click", args := none } "click" "boom" rfl rfl,
   ((executeFunctionCalls_one_result_per_request _ "best").1
      [{ name := some "click", args := none }]).1.trans rfl⟩

/-- C4: a navigate_page call whose url is a bare Google homepage spelling
is rewritten, while the task query is `best pizza`, to the full search
URL with whitespace collapsed to plus signs; and any navigation URL whose
string form already contains a question mark passes through unmodified. -/
theorem navigate_page_search_rewrite :
    ((fixNavigateUrl "best pizza" "navigate_page"
        [("url", .vStr "https://www.google.com")]).lookup "url" =
      some (.vStr "https://www.google.com/search?q=best+pizza")) ∧
    ((fixNavigateUrl "best pizza" "navigate_page"
        [("url", .vStr "google.com")]).lookup "url" =
      some (.vStr "https://www.google.com/search?q=best+pizza")) ∧
    ((fixNavigateUrl "best pizza" "navigate_page"
        [("url", .vStr "http://www.google.com")]).lookup "url" =
      some (.vStr "https://www.google.com/search?q=best+pizza")) ∧
    (∀ (q : String) (args : List (String × Value)),
      '?' ∈ (jsToStringOpt (args.lookup "url")).data →
      fixNavigateUrl q "navigate_page" args = args) := by
  refine ⟨by rfl, by rfl, by rfl, ?_⟩
  intro q args hmem
  unfold fixNavigateUrl
  split
  · rw [if_neg]
    intro hcond
    exact hcond.2 (mem_data_jsToLowerCase hmem)
  · rfl

/-- C4 witness: a URL that already carries a query component is executed
unmodified. -/
theorem navigate_page_search_rewrite_witness :
    fixNavigateUrl "best pizza" "navigate_page"
      [("url", .vStr "https://www.google.com/search?q=already")] =
    [("url", .vStr "https://www.google.com/search?q=already")] :=
  navigate_page_search_rewrite.2.2.2 "best pizza" _ (by decide)

/-- C10: the search rewrite fires only when the lowercased url argument
is exactly one of the six bare homepage literals — every other
navigate_page URL, including the trailing-slash Google homepage and other
search engines, passes through unmodified — and it does fire on each of
the six. -/
theorem rewrite_only_exact_bare_google :
    (∀ (q : String) (args : List (String × Value)),
      ¬ isBareGoogleUrl (jsToLowerCase (jsToStringOpt (args.lookup "url"))) →
      fixNavigateUrl q "navigate_page" args = args) ∧
    (fixNavigateUrl "best pizza" "navigate_page" [("url", .vStr "https://www.google.com/")] =
      [("url", .vStr "https://www.google.com/")]) ∧
    (fixNavigateUrl "best pizza" "navigate_page" [("url", .vStr "https://www.bing.com")] =
      [("url", .vStr "https://www.bing.com")]) ∧
    (∀ u, u ∈ ["https://www.google.com", "https://google.com", "http://www.google.com",
               "http://google.com", "www.google.com", "google.com"] →
      (fixNavigateUrl "best pizza" "navigate_page" [("url", .vStr u)]).lookup "url" =
        some (.vStr "https://www.google.com/search?q=best+pizza")) := by
  refine ⟨?_, by rfl, by rfl, ?_⟩
  · intro q args hnot
    unfold fixNavigateUrl
    split
    · rw [if_neg]
      intro hcond
      exact hnot hcond.1
    · rfl
  · intro u hu
    fin_cases hu <;> rfl

/-- C10 witness: a different search engine homepage passes through
unmodified. -/
theorem rewrite_only_exact_bare_google_witness :
    fixNavigateUrl "best pizza" "navigate_page" [("url", .vStr "https://duckduckgo.com")] =
      [("url", .vStr "https://duckduckgo.com")] :=
  rewrite_only_exact_bare_google.1 "best pizza" _ (by decide)

/-- Appending tool results never touches the response schema. -/
lemma responseSchema_appendToolResults (st : GeminiClient) (trs : Option (List ToolResult)) :
    (appendToolResults st trs).responseSchema = st.responseSchema := by
  cases trs with
  | none => rfl
  | some l =>
    simp only [appendToolResults]
    split <;> rfl

/-- C5: a provide_answer invocation whose answer argument is missing or
empty (falsy) does not yield an answer response: the reply is treated as
an ordinary function-call turn carrying all the calls, so the agent loop
guard sees `function_call` and does not terminate. -/
theorem empty_answer_does_not_terminate :
    ∀ (st : GeminiClient) (tools : List Tool) (trs : Option (List ToolResult))
      (step : BackendStep) (jp : String → Option Value)
      (response : GenResponse) (candidate : Candidate) (pac : FunctionCall),
      step.mainResult = .ok response →
      response.candidates.bind List.head? = some candidate →
      ((functionCallPartsOf candidate).getD []).isEmpty = false →
      (functionCallsOf candidate).find? (fun c => c.name == some "provide_answer") = some pac →
      jsTruthy (pac.args.bind (List.lookup "answer")) = false →
      continueAgent st tools trs step jp =
        .ok ({ functionCalls := some (functionCallsOf candidate),
               thinking := thinkingOf candidate, type := .function_call },
             appendModelTurn (appendToolResults st trs) candidate) := by
  intro st tools trs step jp response candidate pac hmain hcand hne hfind hfalsy
  unfold continueAgent
  rw [hmain]
  dsimp only
  rw [hcand]
  dsimp only
  simp only [hne, Bool.not_false, if_true, hfind, hfalsy, Bool.false_eq_true, if_false]

/-- A call of the sentinel with an explicitly empty answer argument. -/
def emptyAnswerCall : FunctionCall :=
  { name := some "provide_answer", args := some [("answer", .vStr "")] }

/-- C5 witness: a concrete reply whose provide_answer call has an empty
answer comes back as a function-call response. -/
theorem empty_answer_does_not_terminate_witness :
    continueAgent {} [] none (okReply [fcPart emptyAnswerCall]) (fun _ => none) =
      .ok ({ functionCalls :=
               some (functionCallsOf { content := some { parts := some [fcPart emptyAnswerCall] } }),
             thinking := thinkingOf { content := some { parts := some [fcPart emptyAnswerCall] } },
             type := .function_call },
           appendModelTurn (appendToolResults {} none)
             { content := some { parts := some [fcPart emptyAnswerCall] } }) :=
  empty_answer_does_not_terminate {} [] none (okReply [fcPart emptyAnswerCall]) (fun _ => none)
    _ _ emptyAnswerCall rfl rfl rfl rfl rfl

/-- A reply whose parts carry no function call is the protocol
violation. -/
lemma continueAgent_no_calls (st : GeminiClient) (tools : List Tool)
    (trs : Option (List ToolResult)) (step : BackendStep) (jp : String → Option Value)
    (response : GenResponse) (candidate : Candidate)
    (hmain : step.mainResult = .ok response)
    (hcand : response.candidates.bind List.head? = some candidate)
    (hnone : ∀ p ∈ (candidate.content.bind Content.parts).getD [], p.functionCall = none) :
    continueAgent st tools trs step jp = .error .protocolViolation := by
  have hempty : ((functionCallPartsOf candidate).getD []).isEmpty = true := by
    unfold functionCallPartsOf
    cases hps : candidate.content.bind Content.parts with
    | none => rfl
    | some ps =>
      rw [hps] at hnone
      simp only [Option.getD_some] at hnone
      simp only [Option.map_some', Option.getD_some, List.isEmpty_iff]
      refine List.filter_eq_nil_iff.mpr ?_
      intro p hp
      simp [hnone p hp]
  unfold continueAgent
  rw [hmain]
  dsimp only
  rw [hcand]
  dsimp only
  simp only [hempty, Bool.not_true, Bool.false_eq_true, if_false]

/-- C6: when the backend reply contains no invocation requests at all
despite the forced function-calling mode, continueAgent fails with the
protocol violation, and the failure propagates through executeTask to
the caller (the backend oracle of each request index is consumed exactly
once, so the request is never retried). -/
theorem no_function_calls_protocol_violation :
    (∀ (st : GeminiClient) (tools : List Tool) (trs : Option (List ToolResult))
       (step : BackendStep) (jp : String → Option Value) (response : GenResponse)
       (candidate : Candidate),
       step.mainResult = .ok response →
       response.candidates.bind List.head? = some candidate →
       (∀ p ∈ (candidate.content.bind Content.parts).getD [], p.functionCall = none) →
       continueAgent st tools trs step jp = .error .protocolViolation) ∧
    (∀ (env : Env) (o : Orchestrator) (q : String) (response : GenResponse)
       (candidate : Candidate),
       o.isConnected = true →
       (env.backend 0).mainResult = .ok response →
       (response.candidates.bind List.head? = some candidate) →
       (∀ p ∈ (candidate.content.bind Content.parts).getD [], p.functionCall = none) →
       executeTask env o q = .error .protocolViolation) := by
  constructor
  · intro st tools trs step jp response candidate hmain hcand hnone
    exact continueAgent_no_calls st tools trs step jp response candidate hmain hcand hnone
  · intro env o q response candidate hconn hmain hcand hnone
    unfold executeTask
    rw [hconn]
    simp only [startAgent]
    rw [continueAgent_no_calls _ _ _ _ _ response candidate hmain hcand hnone]
    simp

/-- C6 witness: a concrete text-only reply raises the protocol
violation from both entry points. -/
theorem no_function_calls_protocol_violation_witness :
    continueAgent {} [] none (okReply [{ text := some "hello" }]) (fun _ => none) =
      .error .protocolViolation :=
  no_function_calls_protocol_violation.1 {} [] none (okReply [{ text := some "hello" }])
    (fun _ => none) _ _ rfl rfl
    (by intro p hp; simp at hp; subst hp; rfl)

/-- Evaluation of the structured-answer branch: with a configured schema
and a terminal truthy answer, the final outcome is determined by parsing
the reformat reply text (defaulted to the empty JSON object text when
the body is absent). -/
lemma continueAgent_structured_eval (st : GeminiClient) (tools : List Tool)
    (trs : Option (List ToolResult)) (step : BackendStep) (jp : String → Option Value)
    (response : GenResponse) (candidate : Candidate) (pac : FunctionCall) (schema : Value)
    (textOpt : Option String)
    (hschema : st.responseSchema = some schema)
    (hmain : step.mainResult = .ok response)
    (hcand : response.candidates.bind List.head? = some candidate)
    (hne : ((functionCallPartsOf candidate).getD []).isEmpty = false)
    (hfind : (functionCallsOf candidate).find? (fun c => c.name == some "provide_answer") = some pac)
    (htruthy : jsTruthy (pac.args.bind (List.lookup "answer")) = true)
    (hstruct : step.structuredResult = .ok { text := textOpt }) :
    continueAgent st tools trs step jp =
      (match jp (textOpt.getD "\x7b\x7d") with
       | none => .error .structuredOutputError
       | some v => .ok ({ answer := some (.obj v), type := .answer },
                        appendModelTurn (appendToolResults st trs) candidate)) := by
  have hschema2 : (appendModelTurn (appendToolResults st trs) candidate).responseSchema =
      some schema := by
    rw [show (appendModelTurn (appendToolResults st trs) candidate).responseSchema =
        (appendToolResults st trs).responseSchema from rfl]
    rw [responseSchema_appendToolResults]
    exact hschema
  unfold continueAgent
  rw [hmain]
  dsimp only
  rw [hcand]
  dsimp only
  simp only [hne, Bool.not_false, if_true, hfind, htruthy, hschema2, hstruct]

/-- C7: with a response schema configured and the model terminating with
a non-empty provide_answer, the session consults the reformat
sub-request: the final result is exactly the object obtained by parsing
that reply text as JSON — never the raw answer string — and a parse
failure surfaces as the structured-output error. -/
theorem structured_answer_reformat :
    ∀ (st : GeminiClient) (tools : List Tool) (trs : Option (List ToolResult))
      (step : BackendStep) (jp : String → Option Value) (response : GenResponse)
      (candidate : Candidate) (pac : FunctionCall) (schema : Value) (t : String),
      st.responseSchema = some schema →
      step.mainResult = .ok response →
      response.candidates.bind List.head? = some candidate →
      ((functionCallPartsOf candidate).getD []).isEmpty = false →
      (functionCallsOf candidate).find? (fun c => c.name == some "provide_answer") = some pac →
      jsTruthy (pac.args.bind (List.lookup "answer")) = true →
      step.structuredResult = .ok { text := some t } →
      (∀ v, jp t = some v →
        continueAgent st tools trs step jp =
          .ok ({ answer := some (.obj v), type := .answer },
               appendModelTurn (appendToolResults st trs) candidate)) ∧
      (jp t = none → continueAgent st tools trs step jp = .error .structuredOutputError) := by
  intro st tools trs step jp response candidate pac schema t hschema hmain hcand hne hfind htruthy hstruct
  have heval := continueAgent_structured_eval st tools trs step jp response candidate pac schema
    (some t) hschema hmain hcand hne hfind htruthy hstruct
  constructor
  · intro v hv
    rw [heval]
    simp only [Option.getD_some, hv]
  · intro hv
    rw [heval]
    simp only [Option.getD_some, hv]

/-- The backend step of the structured-answer scenario: a terminal
provide_answer reply and a reformat reply with the given text body. -/
def structStep (textOpt : Option String) : BackendStep :=
  { mainResult := .ok { candidates := some [{ content := some { parts := some [fcPart scenAnswerCall] } }] },
    structuredResult := .ok { text := textOpt } }

/-- C7 witness: a concrete structured run whose reformat text parses to
an object yields that object, not the raw answer string. -/
theorem structured_answer_reformat_witness :
    continueAgent { responseSchema := some (.vObj []) } [] none (structStep (some "price json"))
        (fun s => if s = "price json" then some (.vObj [("price", .vNum 10)]) else none) =
      .ok ({ answer := some (.obj (.vObj [("price", .vNum 10)])), type := .answer },
           appendModelTurn (appendToolResults { responseSchema := some (.vObj []) } none)
             { content := some { parts := some [fcPart scenAnswerCall] } }) :=
  (structured_answer_reformat { responseSchema := some (.vObj []) } [] none
      (structStep (some "price json"))
      (fun s => if s = "price json" then some (.vObj [("price", .vNum 10)]) else none)
      _ _ scenAnswerCall (.vObj []) "price json" rfl rfl rfl rfl rfl rfl rfl).1
    (.vObj [("price", .vNum 10)]) (by simp)

/-- C9: in the structured-answer path, a reformat reply whose text body
is absent is defaulted to the empty JSON object text before parsing, so
the session returns the empty object as the final answer instead of
raising an error. -/
theorem missing_reformat_text_defaults_empty_object :
    ∀ (st : GeminiClient) (tools : List Tool) (trs : Option (List ToolResult))
      (step : BackendStep) (jp : String → Option Value) (response : GenResponse)
      (candidate : Candidate) (pac : FunctionCall) (schema : Value),
      st.responseSchema = some schema →
      step.mainResult = .ok response →
      response.candidates.bind List.head? = some candidate →
      ((functionCallPartsOf candidate).getD []).isEmpty = false →
      (functionCallsOf candidate).find? (fun c => c.name == some "provide_answer") = some pac →
      jsTruthy (pac.args.bind (List.lookup "answer")) = true →
      step.structuredResult = .ok { text := none } →
      jp "\x7b\x7d" = some (.vObj []) →
      continueAgent st tools trs step jp =
        .ok ({ answer := some (.obj (.vObj [])), type := .answer },
             appendModelTurn (appendToolResults st trs) candidate) := by
  intro st tools trs step jp response candidate pac schema hschema hmain hcand hne hfind htruthy hstruct hjp
  have heval := continueAgent_structured_eval st tools trs step jp response candidate pac schema
    none hschema hmain hcand hne hfind htruthy hstruct
  rw [heval]
  simp only [Option.getD_none, hjp]

/-- C9 witness: the concrete structured run with an absent reformat body
returns the empty object. -/
theorem missing_reformat_text_defaults_empty_object_witness :
    continueAgent { responseSchema := some (.vObj []) } [] none (structStep none)
        (fun s => if s = "\x7b\x7d" then some (.vObj []) else none) =
      .ok ({ answer := some (.obj (.vObj [])), type := .answer },
           appendModelTurn (appendToolResults { responseSchema := some (.vObj []) } none)
             { content := some { parts := some [fcPart scenAnswerCall] } }) :=
  missing_reformat_text_defaults_empty_object { responseSchema := some (.vObj []) } [] none
    (structStep none) (fun s => if s = "\x7b\x7d" then some (.vObj []) else none)
    _ _ scenAnswerCall (.vObj []) rfl rfl rfl rfl rfl rfl rfl (by simp)

/-- C8: reset is idempotent — two consecutive resets leave the session in
the same state as one, and the history is empty either way. -/
theorem reset_idempotent :
    ∀ st : GeminiClient, reset (reset st) = reset st ∧
      (reset st).conversationHistory = [] ∧
      (reset (reset st)).conversationHistory = [] :=
  fun _ => ⟨rfl, rfl, rfl⟩

end CGC
